import Mathlib

/-!
Verification of the DCGAN layer-builder library
(tensorflow/examples/cc/gan/dcgan/nn_ops_rkz.cc).

The C++ code is a symbolic graph builder: each constructor emits graph
nodes and returns output handles.  We embed the emitted graphs shallowly
as a deep expression type `GExpr` (one constructor per engine primitive
the builders invoke), and translate each builder into a Lean function
producing the `GExpr` it emits, together with the list of update ops it
registers on the scope.  Numeric facts about the emitted graphs are
stated through small evaluation functions over the rationals.
-/

namespace DCGAN

/-- Graph expressions: one constructor per engine primitive used by the
builders in nn_ops_rkz.cc.  Variables and placeholders are named. -/
inductive GExpr where
  | var (name : String)
  | constF (v : ℚ)
  | constEmpty
  | constShape (dims : List Int)
  | randomUniform (shape : GExpr)
  | randomNormal (dims : List Int)
  | shapeOf (x : GExpr)
  | add (a b : GExpr)
  | sub (a b : GExpr)
  | mul (a b : GExpr)
  | div (a b : GExpr)
  | rsqrt (a : GExpr)
  | cast (a : GExpr)
  | floor (a : GExpr)
  | reduceMean (x : GExpr) (axes : List Int) (keepDims : Bool)
  | stopGradient (x : GExpr)
  | squaredDifference (a b : GExpr)
  | squeeze (x : GExpr) (axes : List Int)
  | matmul (a b : GExpr)
  | reshape (x : GExpr) (dims : List Int)
  | leakyRelu (x : GExpr) (alpha : ℚ)
  | biasAdd (x bias : GExpr)
  | conv2d (input filter : GExpr) (strides : List Int) (padding : String)
  | conv2dBackpropInput (inputSizes filter outBackprop : GExpr)
      (strides : List Int) (padding : String)
  | fbnY (x scale offset mean variance : GExpr) (epsilon : ℚ) (isTraining : Bool)
  | fbnBatchMean (x scale offset mean variance : GExpr) (epsilon : ℚ) (isTraining : Bool)
  | fbnBatchVariance (x scale offset mean variance : GExpr) (epsilon : ℚ) (isTraining : Bool)
  | assignSub (name : String) (ref delta : GExpr)
  deriving DecidableEq

/-- Padding string passed to every convolution in the file. -/
def samePadding : String := "SAME"

/-- Op name of the reference moving-mean update (line 238). -/
def updateMovingMeanName : String := "update_moving_mean"

/-- Op name of the reference moving-variance update (line 246). -/
def updateMovingVarianceName : String := "update_moving_variance"

/-- Op name of the fused moving-mean update (line 301). -/
def fusedUpdateMovingMeanName : String := "fused_update_moving_mean"

/-- Op name of the fused moving-variance update (line 311). -/
def fusedUpdateMovingVarianceName : String := "fused_update_moving_variance"

/-- Placeholder name used for concrete witness inputs. -/
def inputName : String := "x"

/-- Modelled from the spec: the momentum constant `MOMENTUM` is defined in
the missing header (nn_ops_rkz.h / util.h); the spec fixes it to 0.8. -/
def MOMENTUM : ℚ := 4/5

/-- Moments (lines 52-67): mean and variance along `axes`; both reductions
keep dimensions, the squeeze happens afterwards when keepDims is false. -/
def Moments (x : GExpr) (axes : List Int) (keepDims : Bool) : GExpr × GExpr :=
  let m := GExpr.reduceMean x axes true
  let sg := GExpr.stopGradient m
  let sd := GExpr.squaredDifference x sg
  let v := GExpr.reduceMean sd axes true
  if keepDims then (m, v)
  else (GExpr.squeeze m axes, GExpr.squeeze v axes)

/-- BatchNormalization (lines 85-102): inv = rsqrt(variance + eps) * scale;
output = x * cast(inv) + cast(offset - mean * inv). -/
def BatchNormalization (x mean variance offset scale varianceEpsilon : GExpr) : GExpr :=
  let inv := GExpr.mul (GExpr.rsqrt (GExpr.add variance varianceEpsilon)) scale
  let tmp1 := GExpr.mul x (GExpr.cast inv)
  let tmp2 := GExpr.mul mean inv
  GExpr.add tmp1 (GExpr.cast (GExpr.sub offset tmp2))

/-- Dropout (lines 104-119).  The rate parameter has C++ type `const int`;
keep_prob = 1 - rate is computed in float arithmetic. -/
def Dropout (x : GExpr) (rate : Int) : GExpr :=
  let keepProb : ℚ := 1 - (rate : ℚ)
  let randomValue5 := GExpr.randomUniform (GExpr.shapeOf x)
  let randomTensor := GExpr.add randomValue5 (GExpr.constF keepProb)
  let binaryTensor := GExpr.floor randomTensor
  GExpr.mul (GExpr.div x (GExpr.constF keepProb)) binaryTensor

/-- The constant added to the uniform draw inside a dropout subgraph,
when the expression has the shape Dropout emits. -/
def dropoutAddedBias : GExpr → Option ℚ
  | GExpr.mul _ (GExpr.floor (GExpr.add _ (GExpr.constF c))) => some c
  | _ => none

/-- Elementwise value of the dropout subgraph at one position: input value
xv, uniform draw u, integer rate (floor is the engine Floor op). -/
def dropoutValue (xv u : ℚ) (rate : Int) : ℚ :=
  (xv / (1 - (rate : ℚ))) * ((⌊u + (1 - (rate : ℚ))⌋ : ℤ) : ℚ)

/-- Cpp int conversion from a float value: truncation toward zero. -/
def cppTruncToInt (q : ℚ) : Int :=
  if 0 ≤ q then ⌊q⌋ else ⌈q⌉

/-- GlorotUniform fan computation (lines 157-168).  The builder reads
shape[0] and shape[1] unconditionally (out-of-bounds read modelled as
none) and switches to the 4-D receptive-field formula only when the rank
is exactly 4; there is no rank check and no failure path of its own. -/
def glorotFans (shape : List Int) : Option (ℚ × ℚ) := do
  let d0 ← shape.get? 0
  let d1 ← shape.get? 1
  if shape.length = 4 then
    let d2 ← shape.get? 2
    let d3 ← shape.get? 3
    let receptiveFieldSize : ℚ := (d0 : ℚ) * (d1 : ℚ)
    pure (receptiveFieldSize * (d2 : ℚ), receptiveFieldSize * (d3 : ℚ))
  else
    pure ((d0 : ℚ), (d1 : ℚ))

/-- GlorotUniform scale (line 174): scale = 1 / max(1, (fan_in+fan_out)/2). -/
def glorotScale (shape : List Int) : Option ℚ := do
  let (fanIn, fanOut) ← glorotFans shape
  pure (1 / max 1 ((fanIn + fanOut) / 2))

/-- The limit value the builder computes at line 175: limit = sqrt(3*scale),
characterised exactly (the nonnegative square root of 3 * scale). -/
def isGlorotLimit (shape : List Int) (limit : ℚ) : Prop :=
  0 ≤ limit ∧ some (limit ^ 2) = (glorotScale shape).map (fun s => 3 * s)

/-- The affine map applied to a uniform sample (lines 178-181):
value = uniform * (maxval - minval) + minval with maxval = limit and
minval = -limit. -/
def glorotSample (u limit : ℚ) : ℚ :=
  u * (limit - (-limit)) + (-limit)

/-- Conv2DTranspose (lines 188-197): pure delegation to the
convolution-input-gradient primitive Conv2DBackpropInput. -/
def Conv2DTranspose (inputSizes filter outBackprop : GExpr)
    (strides : List Int) (padding : String) : GExpr :=
  GExpr.conv2dBackpropInput inputSizes filter outBackprop strides padding

/-- Owned state of the reference normalization layer (lines 199-218). -/
structure TFBatchNormalization where
  moving_mean : GExpr
  moving_variance : GExpr
  gamma : GExpr
  beta : GExpr

/-- The two moving-statistics update assignments shared by both
normalization variants: moving -= (moving - batch) * (1 - MOMENTUM),
emitted as AssignSub nodes and registered as update ops. -/
def movingUpdateOps (nameMean nameVar : String)
    (movingMean movingVariance batchMean batchVariance : GExpr) : List GExpr :=
  let decay := GExpr.constF (1 - MOMENTUM)
  [GExpr.assignSub nameMean movingMean
      (GExpr.mul (GExpr.sub movingMean batchMean) decay),
   GExpr.assignSub nameVar movingVariance
      (GExpr.mul (GExpr.sub movingVariance batchVariance) decay)]

/-- TFBatchNormalization::Build (lines 220-258): output expression plus the
update ops registered on the scope during the call. -/
def TFBatchNormalization.Build (bn : TFBatchNormalization) (x : GExpr)
    (axes : List Int) (varianceEpsilon : GExpr) (training : Bool) :
    GExpr × List GExpr :=
  if training then
    let moments := Moments x axes false
    let mean := moments.1
    let variance := moments.2
    (BatchNormalization x mean variance bn.beta bn.gamma varianceEpsilon,
     movingUpdateOps updateMovingMeanName updateMovingVarianceName
       bn.moving_mean bn.moving_variance mean variance)
  else
    (BatchNormalization x bn.moving_mean bn.moving_variance bn.beta bn.gamma
       varianceEpsilon, [])

/-- Value of an AssignSub update op on stored value old: old := old - delta. -/
def assignSubValue (old delta : ℚ) : ℚ := old - delta

/-- Owned state of the fused normalization layer (lines 260-281). -/
structure TFFusedBatchNorm where
  moving_mean : GExpr
  moving_variance : GExpr
  gamma : GExpr
  beta : GExpr

/-- TFFusedBatchNorm::Build (lines 283-327).  Training: the fused primitive
runs with its default isTraining=true on empty mean/variance inputs and the
update ops are computed from its batch_mean/batch_variance outputs.
Inference: the fused primitive gets IsTraining(false) together with the
stored moving statistics, and nothing is registered. -/
def TFFusedBatchNorm.Build (bn : TFFusedBatchNorm) (x : GExpr)
    (varianceEpsilon : ℚ) (training : Bool) : GExpr × List GExpr :=
  if training then
    let mean := GExpr.constEmpty
    let variance := GExpr.constEmpty
    let y := GExpr.fbnY x bn.gamma bn.beta mean variance varianceEpsilon true
    let batchMean :=
      GExpr.fbnBatchMean x bn.gamma bn.beta mean variance varianceEpsilon true
    let batchVariance :=
      GExpr.fbnBatchVariance x bn.gamma bn.beta mean variance varianceEpsilon true
    (y, movingUpdateOps fusedUpdateMovingMeanName fusedUpdateMovingVarianceName
          bn.moving_mean bn.moving_variance batchMean batchVariance)
  else
    (GExpr.fbnY x bn.gamma bn.beta bn.moving_mean bn.moving_variance
       varianceEpsilon false, [])

/-- Owned state of the Generator (lines 330-360). -/
structure Generator where
  w1 : GExpr
  filter : GExpr
  filter2 : GExpr
  filter3 : GExpr
  batchnorm_op : TFBatchNormalization
  batchnorm1_op : TFFusedBatchNorm
  batchnorm2_op : TFFusedBatchNorm

/-- Generator::Build (lines 363-432).  NOISE_DIM and NUM_CHANNELS are
macros from the missing header and appear as parameters.  Returns the
output expression and the update ops registered during the call. -/
def Generator.Build (gen : Generator) (noiseDim numChannels batchSize : Int)
    (training : Bool) : GExpr × List GExpr :=
  let noise := GExpr.randomNormal [batchSize, noiseDim]
  let dense := GExpr.matmul noise gen.w1
  let varianceEpsilon := GExpr.constF (1/1000)
  let bn0 := gen.batchnorm_op.Build dense [0] varianceEpsilon training
  let leakyrelu := GExpr.leakyRelu bn0.1 (3/10)
  let reshape1 := GExpr.reshape leakyrelu [batchSize, 7, 7, 256]
  let inputSizes := GExpr.constShape [batchSize, 7, 7, 128]
  let deconv1 := Conv2DTranspose inputSizes gen.filter reshape1 [1, 1, 1, 1] samePadding
  let bn1 := gen.batchnorm1_op.Build deconv1 (1/1000) training
  let leakyrelu1 := GExpr.leakyRelu bn1.1 (3/10)
  let inputSizes2 := GExpr.constShape [batchSize, 14, 14, 64]
  let deconv2 := Conv2DTranspose inputSizes2 gen.filter2 leakyrelu1 [1, 2, 2, 1] samePadding
  let bn2 := gen.batchnorm2_op.Build deconv2 (1/1000) training
  let leakyrelu2 := GExpr.leakyRelu bn2.1 (3/10)
  let inputSizes3 := GExpr.constShape [batchSize, 28, 28, numChannels]
  (Conv2DTranspose inputSizes3 gen.filter3 leakyrelu2 [1, 2, 2, 1] samePadding,
   bn0.2 ++ bn1.2 ++ bn2.2)

/-- Minimal shape reading for the final node: the output shape of the
convolution-input-gradient primitive is its input_sizes argument. -/
def inferredShape : GExpr → Option (List Int)
  | GExpr.conv2dBackpropInput (GExpr.constShape dims) _ _ _ _ => some dims
  | GExpr.randomNormal dims => some dims
  | GExpr.reshape _ dims => some dims
  | _ => none

/-- Owned state of the Discriminator (lines 435-468). -/
structure Discriminator where
  conv1_weights : GExpr
  conv1_biases : GExpr
  conv2_weights : GExpr
  conv2_biases : GExpr
  fc1_weights : GExpr
  fc1_biases : GExpr

/-- Discriminator::Build (lines 471-514).  IMAGE_SIZE is a macro from the
missing header and appears as a parameter.  The two dropout calls pass the
float literal 0.3f to the int rate parameter, modelled by cppTruncToInt. -/
def Discriminator.Build (d : Discriminator) (inputs : GExpr)
    (batchSize imageSize : Int) : GExpr :=
  let conv2d_1 := GExpr.conv2d inputs d.conv1_weights [1, 2, 2, 1] samePadding
  let relu_1 := GExpr.leakyRelu (GExpr.biasAdd conv2d_1 d.conv1_biases) (3/10)
  let dropout_1 := Dropout relu_1 (cppTruncToInt (3/10))
  let conv2d_2 := GExpr.conv2d dropout_1 d.conv2_weights [1, 2, 2, 1] samePadding
  let relu_2 := GExpr.leakyRelu (GExpr.biasAdd conv2d_2 d.conv2_biases) (3/10)
  let dropout_2 := Dropout relu_2 (cppTruncToInt (3/10))
  let s1 := (imageSize / 4) ^ 2 * 128
  let reshape1 := GExpr.reshape dropout_2 [batchSize, s1]
  GExpr.biasAdd (GExpr.matmul reshape1 d.fc1_weights) d.fc1_biases

/-- Value semantics of ReduceMean with keepDims over an arbitrary axes
choice: positions ι are grouped by the non-reduced coordinates through
g : ι → κ, and each position is mapped to the mean of its group. -/
def groupMean {ι κ : Type} [Fintype ι] [DecidableEq ι] [DecidableEq κ]
    (g : ι → κ) (x : ι → ℚ) (k : κ) : ℚ :=
  (∑ i in Finset.univ.filter (fun i => g i = k), x i) /
    ((Finset.univ.filter (fun i => g i = k)).card : ℚ)

/-- Value semantics of the Moments mean output. -/
def momentsMeanValue {ι κ : Type} [Fintype ι] [DecidableEq ι] [DecidableEq κ]
    (g : ι → κ) (x : ι → ℚ) (k : κ) : ℚ :=
  groupMean g x k

/-- Value semantics of the Moments variance output: the squared difference
from the broadcast mean, averaged over the same groups. -/
def momentsVarianceValue {ι κ : Type} [Fintype ι] [DecidableEq ι] [DecidableEq κ]
    (g : ι → κ) (x : ι → ℚ) (k : κ) : ℚ :=
  groupMean g (fun i => (x i - groupMean g x (g i)) ^ 2) k

/-- The dense product feeding the reference normalization layer in
Generator::Build (lines 366-370). -/
def generatorDense (gen : Generator) (noiseDim batchSize : Int) : GExpr :=
  GExpr.matmul (GExpr.randomNormal [batchSize, noiseDim]) gen.w1

/-- The reshaped activation feeding the first transposed convolution
(lines 374-386). -/
def generatorReshaped (gen : Generator) (noiseDim batchSize : Int)
    (training : Bool) : GExpr :=
  GExpr.reshape
    (GExpr.leakyRelu
      (gen.batchnorm_op.Build (generatorDense gen noiseDim batchSize) [0]
        (GExpr.constF (1/1000)) training).1 (3/10))
    [batchSize, 7, 7, 256]

/-- The first transposed convolution (lines 389-393): stride 1, SAME
padding, spatial target [batchSize, 7, 7, 128]. -/
def generatorDeconv1 (gen : Generator) (noiseDim batchSize : Int)
    (training : Bool) : GExpr :=
  GExpr.conv2dBackpropInput (GExpr.constShape [batchSize, 7, 7, 128])
    gen.filter (generatorReshaped gen noiseDim batchSize training)
    [1, 1, 1, 1] samePadding

/-- The second transposed convolution (lines 397-409): stride 2, SAME
padding, spatial target [batchSize, 14, 14, 64]. -/
def generatorDeconv2 (gen : Generator) (noiseDim batchSize : Int)
    (training : Bool) : GExpr :=
  GExpr.conv2dBackpropInput (GExpr.constShape [batchSize, 14, 14, 64])
    gen.filter2
    (GExpr.leakyRelu
      (gen.batchnorm1_op.Build (generatorDeconv1 gen noiseDim batchSize training)
        (1/1000) training).1 (3/10))
    [1, 2, 2, 1] samePadding

/-- The final transposed convolution (lines 415-428): stride 2, SAME
padding, spatial target [batchSize, 28, 28, numChannels], no activation. -/
def generatorOutput (gen : Generator) (noiseDim numChannels batchSize : Int)
    (training : Bool) : GExpr :=
  GExpr.conv2dBackpropInput (GExpr.constShape [batchSize, 28, 28, numChannels])
    gen.filter3
    (GExpr.leakyRelu
      (gen.batchnorm2_op.Build (generatorDeconv2 gen noiseDim batchSize training)
        (1/1000) training).1 (3/10))
    [1, 2, 2, 1] samePadding

/-- Helper: no expression equals the cast of a subtraction having it as the
left operand, by a size argument. -/
theorem cast_sub_ne_left (a b : GExpr) : GExpr.cast (GExpr.sub a b) ≠ a := by
  intro h
  have hsz : sizeOf (GExpr.cast (GExpr.sub a b)) = sizeOf a := congrArg sizeOf h
  simp only [GExpr.cast.sizeOf_spec, GExpr.sub.sizeOf_spec] at hsz
  omega

/-- Helper: the dropout subgraph built with rate 0 is the identity on the
input value whenever the uniform draw lies in the interval [0, 1). -/
theorem dropoutValue_zero (xv u : ℚ) (h0 : 0 ≤ u) (h1 : u < 1) :
    dropoutValue xv u 0 = xv := by
  have hfl : ⌊u⌋ = 0 := Int.floor_eq_zero_iff.mpr ⟨h0, h1⟩
  simp [dropoutValue, hfl]

/-- Helper: the float literal 0.3 passed to the int rate parameter
truncates to 0. -/
theorem cppTruncToInt_three_tenths : cppTruncToInt (3/10) = 0 := by
  norm_num [cppTruncToInt]

/-- Helper: the group mean of a constant function is that constant on
every nonempty group. -/
theorem groupMean_const {ι κ : Type} [Fintype ι] [DecidableEq ι]
    [DecidableEq κ] (g : ι → κ) (c : ℚ) (k : κ) (h : ∃ i, g i = k) :
    groupMean g (fun _ => c) k = c := by
  obtain ⟨i, hi⟩ := h
  have hne : (Finset.univ.filter (fun j => g j = k)).Nonempty :=
    ⟨i, by simp [hi]⟩
  have hcard : ((Finset.univ.filter (fun j => g j = k)).card : ℚ) ≠ 0 := by
    exact_mod_cast (Finset.card_pos.mpr hne).ne'
  rw [groupMean, Finset.sum_const, nsmul_eq_mul, mul_comm, mul_div_assoc,
    div_self hcard, mul_one]

/-- Helper: the group mean of the zero function is zero. -/
theorem groupMean_zero {ι κ : Type} [Fintype ι] [DecidableEq ι]
    [DecidableEq κ] (g : ι → κ) (k : κ) :
    groupMean g (fun _ => (0 : ℚ)) k = 0 := by
  simp [groupMean]

/-- C1: TFBatchNormalization::Build with training=true takes mean and
variance from Moments with keepDims=false and registers exactly the two
AssignSub update ops moving := moving - (moving - batch) * (1 - momentum);
with training=false it uses the moving statistics and registers nothing. -/
theorem claim_C1 (bn : TFBatchNormalization) (x : GExpr) (axes : List Int)
    (eps : GExpr) :
    (bn.Build x axes eps true).1 =
      BatchNormalization x (Moments x axes false).1 (Moments x axes false).2
        bn.beta bn.gamma eps ∧
    (bn.Build x axes eps true).2 =
      [GExpr.assignSub updateMovingMeanName bn.moving_mean
          (GExpr.mul (GExpr.sub bn.moving_mean (Moments x axes false).1)
            (GExpr.constF (1 - MOMENTUM))),
       GExpr.assignSub updateMovingVarianceName bn.moving_variance
          (GExpr.mul (GExpr.sub bn.moving_variance (Moments x axes false).2)
            (GExpr.constF (1 - MOMENTUM)))] ∧
    (∀ old batch : ℚ,
      assignSubValue old ((old - batch) * (1 - MOMENTUM)) =
        old - (old - batch) * (1 - MOMENTUM)) ∧
    bn.Build x axes eps false =
      (BatchNormalization x bn.moving_mean bn.moving_variance bn.beta bn.gamma
        eps, []) :=
  ⟨rfl, rfl, fun _ _ => rfl, rfl⟩

/-- C2: the BatchNormalization builder emits exactly the form
x * inv + (offset - mean * inv) with inv = rsqrt(variance + eps) * scale,
and not the mathematically equivalent (x - mean) * inv + offset. -/
theorem claim_C2 (x mean variance offset scale eps : GExpr) :
    BatchNormalization x mean variance offset scale eps =
      GExpr.add
        (GExpr.mul x (GExpr.cast
          (GExpr.mul (GExpr.rsqrt (GExpr.add variance eps)) scale)))
        (GExpr.cast (GExpr.sub offset
          (GExpr.mul mean
            (GExpr.mul (GExpr.rsqrt (GExpr.add variance eps)) scale)))) ∧
    BatchNormalization x mean variance offset scale eps ≠
      GExpr.add
        (GExpr.mul (GExpr.sub x mean)
          (GExpr.mul (GExpr.rsqrt (GExpr.add variance eps)) scale))
        offset := by
  refine ⟨rfl, fun h => ?_⟩
  have h2 := (GExpr.add.injEq _ _ _ _).mp h
  exact cast_sub_ne_left offset
    (GExpr.mul mean (GExpr.mul (GExpr.rsqrt (GExpr.add variance eps)) scale))
    h2.2

/-- C3: the Dropout builder emits (x / keepProb) * floor(uniform + keepProb)
with keepProb = 1 - rate, and for rate = 0 the emitted subgraph computes
the identity on the input for every uniform draw in [0, 1). -/
theorem claim_C3 (x : GExpr) (rate : Int) :
    Dropout x rate =
      GExpr.mul (GExpr.div x (GExpr.constF (1 - (rate : ℚ))))
        (GExpr.floor (GExpr.add (GExpr.randomUniform (GExpr.shapeOf x))
          (GExpr.constF (1 - (rate : ℚ))))) ∧
    (∀ xv u : ℚ, 0 ≤ u → u < 1 → dropoutValue xv u 0 = xv) :=
  ⟨rfl, fun xv u h0 h1 => dropoutValue_zero xv u h0 h1⟩

/-- C3 witness at x placeholder, rate 0, input value 3, uniform draw 1/2. -/
theorem claim_C3_witness :
    (0 : ℚ) ≤ 1/2 ∧ (1/2 : ℚ) < 1 ∧ dropoutValue 3 (1/2) 0 = 3 :=
  ⟨by norm_num, by norm_num,
   (claim_C3 (GExpr.var inputName) 0).2 3 (1/2) (by norm_num) (by norm_num)⟩

/-- C4 counterexample: at rate 2 the constant added to the uniform draw in
the emitted dropout subgraph is keepProb = 1 - 2 = -1, not the raw rate 2;
the claim that the additive bias is the raw rate fails on the code. -/
theorem claim_C4_counterexample :
    dropoutAddedBias (Dropout (GExpr.var inputName) 2) = some (-1) ∧
    dropoutAddedBias (Dropout (GExpr.var inputName) 2) ≠ some 2 := by
  have hb : dropoutAddedBias (Dropout (GExpr.var inputName) 2) =
      some (1 - ((2 : Int) : ℚ)) := rfl
  constructor
  · rw [hb]
    norm_num
  · rw [hb]
    intro h
    have h2 := Option.some.inj h
    norm_num at h2

/-- C4 amended: the additive bias applied to the uniform draw before
flooring is keepProb = 1 - rate, not the raw rate. -/
theorem claim_C4_amended (x : GExpr) (rate : Int) :
    dropoutAddedBias (Dropout x rate) = some (1 - (rate : ℚ)) := rfl

/-- C5: the dropout rate parameter is an int, so the float literal 0.3
passed in Discriminator::Build truncates to 0; both dropout calls in the
discriminator emit the subgraph (x / 1) * floor(uniform + 1), which is the
identity on the input for every uniform draw in [0, 1). -/
theorem claim_C5 (x : GExpr) :
    cppTruncToInt (3/10) = 0 ∧
    Dropout x (cppTruncToInt (3/10)) =
      GExpr.mul (GExpr.div x (GExpr.constF 1))
        (GExpr.floor (GExpr.add (GExpr.randomUniform (GExpr.shapeOf x))
          (GExpr.constF 1))) ∧
    (∀ (d : Discriminator) (inputs : GExpr) (batchSize imageSize : Int),
      Discriminator.Build d inputs batchSize imageSize =
        GExpr.biasAdd
          (GExpr.matmul
            (GExpr.reshape
              (Dropout
                (GExpr.leakyRelu
                  (GExpr.biasAdd
                    (GExpr.conv2d
                      (Dropout
                        (GExpr.leakyRelu
                          (GExpr.biasAdd
                            (GExpr.conv2d inputs d.conv1_weights [1, 2, 2, 1]
                              samePadding)
                            d.conv1_biases)
                          (3/10))
                        (cppTruncToInt (3/10)))
                      d.conv2_weights [1, 2, 2, 1] samePadding)
                    d.conv2_biases)
                  (3/10))
                (cppTruncToInt (3/10)))
              [batchSize, (imageSize / 4) ^ 2 * 128])
            d.fc1_weights)
          d.fc1_biases) ∧
    (∀ xv u : ℚ, 0 ≤ u → u < 1 →
      dropoutValue xv u (cppTruncToInt (3/10)) = xv) := by
  refine ⟨cppTruncToInt_three_tenths, ?_, fun _ _ _ _ => rfl, ?_⟩
  · rw [cppTruncToInt_three_tenths]
    norm_num [Dropout]
  · intro xv u h0 h1
    rw [cppTruncToInt_three_tenths]
    exact dropoutValue_zero xv u h0 h1

/-- C5 witness at x placeholder, input value 2, uniform draw 1/2. -/
theorem claim_C5_witness :
    (0 : ℚ) ≤ 1/2 ∧ (1/2 : ℚ) < 1 ∧
    dropoutValue 2 (1/2) (cppTruncToInt (3/10)) = 2 :=
  ⟨by norm_num, by norm_num,
   (claim_C5 (GExpr.var inputName)).2.2.2 2 (1/2) (by norm_num) (by norm_num)⟩

/-- C6: TFFusedBatchNorm::Build with training=true registers moving-mean
and moving-variance updates of the same form as the reference variant,
computed from the batch statistics of the fused primitive; with
training=false it passes isTraining=false together with the stored moving
statistics to the fused primitive and registers nothing. -/
theorem claim_C6 (bn : TFFusedBatchNorm) (x : GExpr) (eps : ℚ) :
    (bn.Build x eps true).1 =
      GExpr.fbnY x bn.gamma bn.beta GExpr.constEmpty GExpr.constEmpty eps
        true ∧
    (bn.Build x eps true).2 =
      movingUpdateOps fusedUpdateMovingMeanName fusedUpdateMovingVarianceName
        bn.moving_mean bn.moving_variance
        (GExpr.fbnBatchMean x bn.gamma bn.beta GExpr.constEmpty
          GExpr.constEmpty eps true)
        (GExpr.fbnBatchVariance x bn.gamma bn.beta GExpr.constEmpty
          GExpr.constEmpty eps true) ∧
    (∀ (bref : TFBatchNormalization) (axes : List Int) (epsE : GExpr),
      (bref.Build x axes epsE true).2 =
        movingUpdateOps updateMovingMeanName updateMovingVarianceName
          bref.moving_mean bref.moving_variance
          (Moments x axes false).1 (Moments x axes false).2) ∧
    (∀ (nm nv : String) (mm mv bm bv : GExpr),
      movingUpdateOps nm nv mm mv bm bv =
        [GExpr.assignSub nm mm
            (GExpr.mul (GExpr.sub mm bm) (GExpr.constF (1 - MOMENTUM))),
         GExpr.assignSub nv mv
            (GExpr.mul (GExpr.sub mv bv) (GExpr.constF (1 - MOMENTUM)))]) ∧
    bn.Build x eps false =
      (GExpr.fbnY x bn.gamma bn.beta bn.moving_mean bn.moving_variance eps
        false, []) :=
  ⟨rfl, rfl, fun _ _ _ => rfl, fun _ _ _ _ _ _ => rfl, rfl⟩

/-- C7: GlorotUniform fan computation for ranks 2 and 4, the scale formula
scale = 1 / max(1, (fan_in + fan_out) / 2), the affine sample map
value = uniform * (maxval - minval) + minval with minval = -limit and
maxval = limit where limit * limit = 3 * scale, and the resulting bound
that every output value lies in [-limit, limit]. -/
theorem claim_C7 :
    (∀ d0 d1 : Int, glorotFans [d0, d1] = some ((d0 : ℚ), (d1 : ℚ))) ∧
    (∀ kh kw ci co : Int, glorotFans [kh, kw, ci, co] =
      some (((kh : ℚ) * (kw : ℚ)) * (ci : ℚ),
            ((kh : ℚ) * (kw : ℚ)) * (co : ℚ))) ∧
    (∀ (s : List Int) (fi fo : ℚ), glorotFans s = some (fi, fo) →
      glorotScale s = some (1 / max 1 ((fi + fo) / 2))) ∧
    (∀ u l : ℚ, glorotSample u l = u * (l - (-l)) + (-l)) ∧
    (∀ (s : List Int) (l u : ℚ), isGlorotLimit s l → 0 ≤ u → u ≤ 1 →
      -l ≤ glorotSample u l ∧ glorotSample u l ≤ l) := by
  refine ⟨fun d0 d1 => rfl, fun kh kw ci co => rfl, ?_, fun u l => rfl, ?_⟩
  · intro s fi fo h
    simp [glorotScale, h]
  · intro s l u hlim h0 h1
    obtain ⟨hl0, _⟩ := hlim
    have h2l : (0 : ℚ) ≤ l - (-l) := by linarith
    have hub : u * (l - (-l)) ≤ 1 * (l - (-l)) :=
      mul_le_mul_of_nonneg_right h1 h2l
    have hlb : 0 ≤ u * (l - (-l)) := mul_nonneg h0 h2l
    constructor <;> simp only [glorotSample] <;> linarith

/-- C7 witness: shape [3, 3] has scale 1/3 and limit 1; the sample at
uniform draw 1/2 lies in [-1, 1]. -/
theorem claim_C7_witness :
    isGlorotLimit [3, 3] 1 ∧ (0 : ℚ) ≤ 1/2 ∧ (1/2 : ℚ) ≤ 1 ∧
    (-1 ≤ glorotSample (1/2) 1 ∧ glorotSample (1/2) 1 ≤ 1) := by
  have hsc : glorotScale [3, 3] =
      some (1 / max 1 ((((3 : Int) : ℚ) + ((3 : Int) : ℚ)) / 2)) := rfl
  have hlim : isGlorotLimit [3, 3] 1 := by
    refine ⟨by norm_num, ?_⟩
    rw [hsc]
    norm_num [max_def]
  exact ⟨hlim, by norm_num, by norm_num,
    claim_C7.2.2.2.2 [3, 3] 1 (1/2) hlim (by norm_num) (by norm_num)⟩

/-- C8 counterexample: for the rank-3 shape [2, 3, 4] GlorotUniform
produces fans (2, 3) by the rank-2 formula and scale 2/5 instead of
failing with a descriptive error. -/
theorem claim_C8_counterexample :
    glorotFans [2, 3, 4] = some (2, 3) ∧
    glorotScale [2, 3, 4] = some (2/5) := by
  have hf : glorotFans [2, 3, 4] = some (((2 : Int) : ℚ), ((3 : Int) : ℚ)) :=
    rfl
  have hs : glorotScale [2, 3, 4] =
      some (1 / max 1 ((((2 : Int) : ℚ) + ((3 : Int) : ℚ)) / 2)) := rfl
  constructor
  · rw [hf]
    norm_num
  · rw [hs]
    norm_num [max_def]

/-- C8 amended: GlorotUniform performs no rank check and raises no
UnsupportedShapeError; every shape of rank at least 2 other than rank 4 is
silently handled with the rank-2 fan formula fan_in = shape[0],
fan_out = shape[1], and only shapes of rank below 2 fail, through an
out-of-bounds element access rather than a descriptive error. -/
theorem claim_C8_amended (s : List Int) :
    (∀ d0 d1 : Int, s.get? 0 = some d0 → s.get? 1 = some d1 →
      s.length ≠ 4 → glorotFans s = some ((d0 : ℚ), (d1 : ℚ))) ∧
    (s.length < 2 → glorotFans s = none) := by
  constructor
  · intro d0 d1 h0 h1 h4
    rw [List.get?_eq_getElem?] at h0 h1
    simp [glorotFans, h0, h1, h4]
  · intro h
    rcases s with _ | ⟨a, _ | ⟨b, t⟩⟩
    · rfl
    · rfl
    · simp only [List.length] at h
      omega

/-- C8 amended witness at the rank-3 shape [2, 3, 4]. -/
theorem claim_C8_amended_witness :
    ([2, 3, 4] : List Int).get? 0 = some 2 ∧
    ([2, 3, 4] : List Int).get? 1 = some 3 ∧
    ([2, 3, 4] : List Int).length ≠ 4 ∧
    glorotFans [2, 3, 4] = some (2, 3) := by
  refine ⟨rfl, rfl, by decide, ?_⟩
  have h := (claim_C8_amended [2, 3, 4]).1 2 3 rfl rfl (by decide)
  rw [h]
  norm_num

/-- C9: Moments reduces with keepDims=true, applies stop-gradient to the
mean inside the variance term, squeezes both outputs after the reduction
when keepDims is false, and on a constant tensor yields mean equal to the
constant and variance 0 for any grouping induced by the reduction axes. -/
theorem claim_C9 :
    (∀ (x : GExpr) (axes : List Int),
      Moments x axes true =
        (GExpr.reduceMean x axes true,
         GExpr.reduceMean
           (GExpr.squaredDifference x
             (GExpr.stopGradient (GExpr.reduceMean x axes true)))
           axes true)) ∧
    (∀ (x : GExpr) (axes : List Int),
      Moments x axes false =
        (GExpr.squeeze (GExpr.reduceMean x axes true) axes,
         GExpr.squeeze
           (GExpr.reduceMean
             (GExpr.squaredDifference x
               (GExpr.stopGradient (GExpr.reduceMean x axes true)))
             axes true)
           axes)) ∧
    (∀ (ι κ : Type) [Fintype ι] [DecidableEq ι] [DecidableEq κ]
       (g : ι → κ) (c : ℚ) (k : κ), Function.Surjective g →
      momentsMeanValue g (fun _ => c) k = c ∧
      momentsVarianceValue g (fun _ => c) k = 0) := by
  refine ⟨fun x axes => rfl, fun x axes => rfl, ?_⟩
  intro ι κ _ _ _ g c k hsurj
  have hmean : ∀ k0 : κ, groupMean g (fun _ => c) k0 = c := fun k0 =>
    groupMean_const g c k0 (hsurj k0)
  constructor
  · exact hmean k
  · have hfun : (fun i => ((fun _ => c) i - groupMean g (fun _ => c) (g i)) ^ 2)
        = fun _ : ι => (0 : ℚ) := by
      funext i
      rw [hmean (g i)]
      ring
    rw [momentsVarianceValue, hfun]
    exact groupMean_zero g k

/-- C9 witness: four positions grouped into two groups of two, constant
value 5; the mean is 5 and the variance is 0 on both groups. -/
theorem claim_C9_witness :
    Function.Surjective (fun i : Fin 4 => (i % 2 : Fin 2)) ∧
    momentsMeanValue (fun i : Fin 4 => (i % 2 : Fin 2)) (fun _ => (5 : ℚ)) 0
      = 5 ∧
    momentsVarianceValue (fun i : Fin 4 => (i % 2 : Fin 2)) (fun _ => (5 : ℚ)) 0
      = 0 := by
  have hs : Function.Surjective (fun i : Fin 4 => (i % 2 : Fin 2)) := by
    decide
  have h := claim_C9.2.2 (Fin 4) (Fin 2) (fun i => (i % 2 : Fin 2)) 5 0 hs
  exact ⟨hs, h.1, h.2⟩

/-- C10: Generator::Build emits, in order, the noise draw, the dense
matmul, the reference batch normalization over axis 0 with epsilon 1e-3,
leaky rectification with slope 3/10, the reshape to [b, 7, 7, 256], and
three transposed convolutions with strides 1, 2, 2 and SAME padding to
spatial shapes [b, 7, 7, 128], [b, 14, 14, 64] and [b, 28, 28, channels],
the first two followed by fused normalization and leaky rectification and
the last by no activation; every transposed convolution is the
convolution-input-gradient primitive, and the final output shape is
[b, 28, 28, channels]. -/
theorem claim_C10 (gen : Generator) (noiseDim numChannels batchSize : Int)
    (training : Bool) :
    (∀ (a f o : GExpr) (s : List Int) (p : String),
      Conv2DTranspose a f o s p = GExpr.conv2dBackpropInput a f o s p) ∧
    generatorDense gen noiseDim batchSize =
      GExpr.matmul (GExpr.randomNormal [batchSize, noiseDim]) gen.w1 ∧
    generatorReshaped gen noiseDim batchSize training =
      GExpr.reshape
        (GExpr.leakyRelu
          (gen.batchnorm_op.Build (generatorDense gen noiseDim batchSize) [0]
            (GExpr.constF (1/1000)) training).1 (3/10))
        [batchSize, 7, 7, 256] ∧
    generatorDeconv1 gen noiseDim batchSize training =
      GExpr.conv2dBackpropInput (GExpr.constShape [batchSize, 7, 7, 128])
        gen.filter (generatorReshaped gen noiseDim batchSize training)
        [1, 1, 1, 1] samePadding ∧
    generatorDeconv2 gen noiseDim batchSize training =
      GExpr.conv2dBackpropInput (GExpr.constShape [batchSize, 14, 14, 64])
        gen.filter2
        (GExpr.leakyRelu
          (gen.batchnorm1_op.Build
            (generatorDeconv1 gen noiseDim batchSize training)
            (1/1000) training).1 (3/10))
        [1, 2, 2, 1] samePadding ∧
    generatorOutput gen noiseDim numChannels batchSize training =
      GExpr.conv2dBackpropInput
        (GExpr.constShape [batchSize, 28, 28, numChannels]) gen.filter3
        (GExpr.leakyRelu
          (gen.batchnorm2_op.Build
            (generatorDeconv2 gen noiseDim batchSize training)
            (1/1000) training).1 (3/10))
        [1, 2, 2, 1] samePadding ∧
    gen.Build noiseDim numChannels batchSize training =
      (generatorOutput gen noiseDim numChannels batchSize training,
       (gen.batchnorm_op.Build (generatorDense gen noiseDim batchSize) [0]
           (GExpr.constF (1/1000)) training).2 ++
         (gen.batchnorm1_op.Build
             (generatorDeconv1 gen noiseDim batchSize training)
             (1/1000) training).2 ++
         (gen.batchnorm2_op.Build
             (generatorDeconv2 gen noiseDim batchSize training)
             (1/1000) training).2) ∧
    inferredShape (gen.Build noiseDim numChannels batchSize training).1 =
      some [batchSize, 28, 28, numChannels] :=
  ⟨fun _ _ _ _ _ => rfl, rfl, rfl, rfl, rfl, rfl, rfl, rfl⟩

end DCGAN
